import Mathlib

/-!
Shallow embedding of `app.py` (a Flask video-downloader backend) and proofs
about the spec's claims.  Pure Python helpers become Lean functions; the
download worker becomes a function of an explicit environment describing the
external collaborator's behaviour (metadata result, progress events, download
result, directory contents); the task store becomes a map from identifiers to
records.
-/

namespace SaveClip

/-! ### Python string primitives -/

/-- Python `s.lower()` (the characters occurring in this program are ASCII). -/
def pyLower (s : String) : String := ⟨s.data.map Char.toLower⟩

/-- Python `pat in s` (substring test). -/
def pyContains (s pat : String) : Bool := decide (pat.data <:+: s.data)

/-- Python `s.startswith(p)`. -/
def pyStartsWith (s p : String) : Bool := decide (p.data <+: s.data)

/-- Python `s.strip()`: drop leading and trailing whitespace. -/
def pyStrip (s : String) : String :=
  ⟨(((s.data.dropWhile Char.isWhitespace).reverse.dropWhile Char.isWhitespace).reverse)⟩

theorem pyContains_iff {s pat : String} :
    pyContains s pat = true ↔ pat.data <:+: s.data := by
  simp [pyContains]

theorem pyStartsWith_iff {s p : String} :
    pyStartsWith s p = true ↔ p.data <+: s.data := by
  simp [pyStartsWith]

/-! ### URL classifier (`is_valid_url`, `get_platform`, app.py lines 50-66) -/

/-- The alternatives of the optional scheme group `(https?://)?`. -/
def schemeAlts : List String := ["", "http://", "https://"]

/-- The alternatives of the optional subdomain group `(www\.|vm\.|vt\.)?`. -/
def tiktokSubAlts : List String := ["", "www.", "vm.", "vt."]

/-- The alternatives of the optional subdomain group `(www\.)?`. -/
def wwwAlts : List String := ["", "www."]

/-- `re.match` of a pattern that is a concatenation of an optional scheme
group, an optional subdomain group and a literal domain: it succeeds exactly
when some fully literal alternative is a prefix of `url`. -/
def matchesAlt (ss subs : List String) (domain url : String) : Bool :=
  ss.any fun sch => subs.any fun sub => pyStartsWith url (sch ++ sub ++ domain)

/-- `is_valid_url` (app.py lines 50-57): the three patterns
`(https?://)?(www\.|vm\.|vt\.)?tiktok\.com/`,
`(https?://)?(www\.)?instagram\.com/`, `(https?://)?ddinstagram\.com/`,
tried with `re.match` (anchored at the start of the string). -/
def is_valid_url (url : String) : Bool :=
  matchesAlt schemeAlts tiktokSubAlts "tiktok.com/" url ||
  matchesAlt schemeAlts wwwAlts "instagram.com/" url ||
  matchesAlt schemeAlts [""] "ddinstagram.com/" url

/-- `get_platform` (app.py lines 60-66): case-insensitive substring checks,
`tiktok` first. -/
def get_platform (url : String) : String :=
  if pyContains (pyLower url) "tiktok" then "tiktok"
  else if pyContains (pyLower url) "instagram" || pyContains (pyLower url) "ddinstagram"
    then "instagram"
  else "unknown"

/-- The scheme normalization of `start_download` (app.py lines 173-175):
`if not url.startswith("http"): url = "https://" + url`. -/
def normalize_url (url : String) : String :=
  if pyStartsWith url "http" then url else "https://" ++ url

/-- Modelled from the claim's words (C6): a supported-platform URL is a
TikTok URL (`tiktok.com`, optionally with a `www.`/`vm.`/`vt.` subdomain), an
Instagram URL (`instagram.com`, optionally with `www.`) or the
`ddinstagram.com` mirror, each with or without an `http`/`https` scheme; the
result is the platform that URL belongs to. -/
def spec_supported_platform (url : String) : Option String :=
  if matchesAlt schemeAlts tiktokSubAlts "tiktok.com/" url then some "tiktok"
  else if matchesAlt schemeAlts wwwAlts "instagram.com/" url ||
          matchesAlt schemeAlts [""] "ddinstagram.com/" url then some "instagram"
  else none

/-- Modelled from the claim's words (C7): carrying an http/https scheme. -/
def spec_has_scheme (url : String) : Bool :=
  pyStartsWith url "http://" || pyStartsWith url "https://"

/-! ### Task records (app.py lines 185-197) -/

/-- One entry of the `downloads` dict. -/
structure Record where
  status : String
  progress : ℚ
  filename : Option String
  error : Option String
  url : String
  platform : String
  title : String
  thumbnail : String
  duration : Nat
  uploader : String
  filesize : Nat
  deriving DecidableEq

/-- The record inserted by `start_download` (app.py lines 185-197). -/
def initRecord (url platform : String) : Record :=
  { status := "queued", progress := 0, filename := none, error := none,
    url := url, platform := platform, title := "", thumbnail := "",
    duration := 0, uploader := "", filesize := 0 }

/-! ### Progress reporting (`progress_hook`, app.py lines 78-89) -/

/-- `round(x, 1)` on the exact rational value of `x`.  (Python rounds the
nearest binary double with banker's rounding; the exact tie-breaking
direction is immaterial to every property stated below, which only use
monotonicity and fixed points at one-decimal values.) -/
def round1 (q : ℚ) : ℚ := ((round (10 * q) : ℤ) : ℚ) / 10

/-- One event handed to the progress hook: the fields of the dict `d` the
hook reads.  `other` stands for any status other than `downloading` and
`finished`, which the hook ignores. -/
inductive PEvent where
  | downloading (downloaded_bytes : Nat) (total_bytes : Option Nat)
      (total_bytes_estimate : Option Nat)
  | finished
  | other
  deriving DecidableEq

/-- Python `a or b` for an optional number `a` (`None` and `0` are falsy). -/
def pyOr (a : Option Nat) (b : Nat) : Nat :=
  match a with
  | some n => if n = 0 then b else n
  | none => b

/-- The body of `progress_hook` (app.py lines 78-89), as a transformer of the
record's `progress` field. -/
def progress_hook (p : ℚ) (e : PEvent) : ℚ :=
  match e with
  | .downloading d tb est =>
      let total := pyOr tb (pyOr est 0)
      if 0 < total then round1 ((d : ℚ) / (total : ℚ) * 100) else -1
  | .finished => 100
  | .other => p

/-! ### Failure classification and the download worker (app.py lines 69-153) -/

/-- The exceptions `download_video` distinguishes: `yt_dlp.utils.DownloadError`
and everything else, each carrying its message `str(e)`. -/
inductive Exc where
  | downloadError (msg : String)
  | otherError (msg : String)
  deriving DecidableEq

def privateMsg : String := "This content is private or requires login."

def notFoundMsg : String := "Video not found. It may have been deleted."

def genericMsg : String :=
  "Could not download the video. It may be unavailable or the platform may be blocking the request."

def missingFileMsg : String := "Download completed but file not found."

/-- The `except yt_dlp.utils.DownloadError` branch (app.py lines 134-148). -/
def classify_download_error (msg : String) : String :=
  if pyContains msg "Private" || pyContains (pyLower msg) "login" then privateMsg
  else if pyContains (pyLower msg) "not found" || pyContains msg "404" then notFoundMsg
  else genericMsg

/-- The two `except` branches of `download_video` (app.py lines 134-153). -/
def applyExc (e : Exc) (r : Record) : Record :=
  match e with
  | .downloadError msg =>
      { r with status := "error", error := some (classify_download_error msg) }
  | .otherError msg =>
      { r with status := "error", error := some ("Unexpected error: " ++ msg) }

/-- The metadata `extract_info` returns (with the `.get` defaults of app.py
lines 115-118 already applied by the collaborator model). -/
structure MetaInfo where
  title : String
  thumbnail : String
  duration : Nat
  uploader : String
  deriving DecidableEq

/-- A directory entry of `DOWNLOAD_DIR` as the program reads it. -/
structure FileEntry where
  name : String
  mtime : Int
  size : Nat
  isFile : Bool
  deriving DecidableEq

/-- One run of the external collaborator and filesystem as seen by the
worker: the outcome of `extract_info`, the progress events delivered while
`ydl.download` runs, the outcome of `ydl.download` (`none` = returned
normally), and the contents of `DOWNLOAD_DIR` at the scan of lines 124-125. -/
structure WorkerEnv where
  extractResult : Except Exc MetaInfo
  events : List PEvent
  downloadResult : Option Exc
  dirFiles : List FileEntry

/-- The scan of app.py lines 124-125: the first directory entry whose name
starts with the task id (no `is_file` check appears in the source). -/
def scanForFile (task_id : String) (files : List FileEntry) : Option FileEntry :=
  files.find? fun f => pyStartsWith f.name task_id

/-- `download_video` (app.py lines 69-153) as a function from the initial
record to the record after the worker returns.  Events are folded into
`progress` in delivery order; an environment whose download raised after only
some events models that prefix directly. -/
def download_video (task_id : String) (env : WorkerEnv) (r : Record) : Record :=
  let r1 : Record := { r with status := "downloading", progress := 0 }
  match env.extractResult with
  | .error e => applyExc e r1
  | .ok info =>
      let r2 : Record :=
        { r1 with title := info.title, thumbnail := info.thumbnail,
                  duration := info.duration, uploader := info.uploader }
      let r3 : Record := { r2 with progress := env.events.foldl progress_hook r2.progress }
      match env.downloadResult with
      | some e => applyExc e r3
      | none =>
          match scanForFile task_id env.dirFiles with
          | some f => { r3 with status := "complete", filename := some f.name,
                                filesize := f.size }
          | none => { r3 with status := "error", error := some missingFileMsg }

/-! ### Retention sweeper (`cleanup_old_files`, app.py lines 30-43) -/

def CLEANUP_INTERVAL : Int := 1800

/-- One pass of the `cleanup_old_files` loop body at time `now`, returning
the surviving directory entries.  `unlinkOk f` tells whether `f.unlink()`
succeeds; the `try/except/pass` swallows a failure and the loop moves on. -/
def cleanup_pass (now : Int) (unlinkOk : FileEntry → Bool) :
    List FileEntry → List FileEntry
  | [] => []
  | f :: fs =>
      if f.isFile && decide (now - f.mtime > CLEANUP_INTERVAL) then
        if unlinkOk f then cleanup_pass now unlinkOk fs
        else f :: cleanup_pass now unlinkOk fs
      else f :: cleanup_pass now unlinkOk fs

/-! ### Task store and HTTP handlers (app.py lines 164-231) -/

/-- The `downloads` dict, as a map from task id to record. -/
def Store := String → Option Record

def storeInsert (s : Store) (id : String) (r : Record) : Store :=
  fun k => if k = id then some r else s k

/-- The response of `start_download`. -/
inductive SubmitResult where
  | badRequest (error : String)
  | accepted (task_id platform : String)
  deriving DecidableEq

/-- The effect of one `start_download` call: the store afterwards, whether a
worker thread was spawned, and the response. -/
structure SubmitOutcome where
  store : Store
  workerSpawned : Bool
  response : SubmitResult

/-- `start_download` (app.py lines 164-203).  `task_id` stands for the fresh
`str(uuid.uuid4())[:8]`; `rawUrl` is `data.get("url", "")` (`none` = key
missing).  In the source the dict insert (line 185) happens before
`thread.start()` (line 201) and before the response is returned (line 203),
so `store` already holds the queued record while `workerSpawned` only records
that a worker will run later. -/
def start_download (s : Store) (task_id : String) (rawUrl : Option String) :
    SubmitOutcome :=
  let url0 := pyStrip (rawUrl.getD "")
  if url0 = "" then
    { store := s, workerSpawned := false,
      response := .badRequest "Please provide a URL." }
  else
    let url := normalize_url url0
    if is_valid_url url then
      { store := storeInsert s task_id (initRecord url (get_platform url)),
        workerSpawned := true,
        response := .accepted task_id (get_platform url) }
    else
      { store := s, workerSpawned := false,
        response := .badRequest "Please enter a valid TikTok or Instagram URL." }

/-- The response of `get_status` (app.py lines 206-212). -/
inductive StatusResult where
  | notFound (error : String)
  | ok (r : Record)
  deriving DecidableEq

def get_status (s : Store) (task_id : String) : StatusResult :=
  match s task_id with
  | none => .notFound "Task not found."
  | some r => .ok r

/-- `c` is in the character class `[a-f0-9]`. -/
def isHexLower (c : Char) : Bool := ('a' ≤ c && c ≤ 'f') || ('0' ≤ c && c ≤ '9')

/-- Python `re.sub(r"^[a-f0-9]+_", "", s)` (app.py line 227).  The anchored
pattern matches exactly when the maximal leading run of `[a-f0-9]` characters
is nonempty and the character after it is `_` (a shorter run cannot rescue a
failed match, because the character following it is still in the class and
hence not the required underscore), and then the run and the underscore are
removed. -/
def stripHexIdUnderscore (s : String) : String :=
  match s.data.takeWhile isHexLower, s.data.dropWhile isHexLower with
  | _ :: _, '_' :: t => ⟨t⟩
  | _, _ => s

/-- The response of `download_file` (app.py lines 215-231).  `typeError`
marks the state where the task is complete but `filename` is `None`, where
the Python line `DOWNLOAD_DIR / task["filename"]` would raise; the worker
never produces such a record. -/
inductive FileResult where
  | notFound (error : String)
  | serve (path downloadName : String)
  | typeError
  deriving DecidableEq

/-- `download_file` (app.py lines 215-231).  `existsOnDisk` models
`filepath.exists()`. -/
def download_file (s : Store) (existsOnDisk : String → Bool) (task_id : String) :
    FileResult :=
  match s task_id with
  | none => .notFound "File not ready."
  | some task =>
      if task.status ≠ "complete" then .notFound "File not ready."
      else
        match task.filename with
        | none => .typeError
        | some fn =>
            if existsOnDisk fn then
              let clean := stripHexIdUnderscore fn
              .serve fn (if clean = "" then fn else clean)
            else .notFound "File not found."

/-! ### Field-by-field visibility of the success-path update (app.py 126-128) -/

/-- The success-path record updates of app.py lines 126-128, in source order:
three separate dict assignments, each atomic on its own, the triple not. -/
def successWrites (name : String) (size : Nat) : List (Record → Record) :=
  [fun r => { r with status := "complete" },
   fun r => { r with filename := some name },
   fun r => { r with filesize := size }]

/-- The record states a concurrent poller can observe while a sequence of
single-field writes is applied: before, between, and after the writes. -/
def observableStates (r : Record) (ws : List (Record → Record)) : List Record :=
  ws.scanl (fun a w => w a) r

/-! ### Helper lemmas -/

theorem str_eq_empty_iff {s : String} : s = "" ↔ s.data = [] := by
  constructor
  · intro h; rw [h]
  · intro h
    apply String.ext
    rw [h]

theorem takeWhile_append_of_all {α : Type} {p : α → Bool} (l1 l2 : List α)
    (h : ∀ c ∈ l1, p c = true) :
    (l1 ++ l2).takeWhile p = l1 ++ l2.takeWhile p := by
  induction l1 with
  | nil => simp
  | cons a t ih =>
      have ha : p a = true := h a (by simp)
      simp [List.takeWhile_cons, ha, ih (fun c hc => h c (by simp [hc]))]

theorem dropWhile_append_of_all {α : Type} {p : α → Bool} (l1 l2 : List α)
    (h : ∀ c ∈ l1, p c = true) :
    (l1 ++ l2).dropWhile p = l2.dropWhile p := by
  induction l1 with
  | nil => simp
  | cons a t ih =>
      have ha : p a = true := h a (by simp)
      simp [List.dropWhile_cons, ha, ih (fun c hc => h c (by simp [hc]))]

/-- A fully literal alternative of a matched pattern forces a (lowercased)
substring of the URL: the backbone of the platform-tagging facts. -/
theorem contains_of_matchesAlt (ss subs : List String) (domain url pat : String)
    (hd : pat.data <:+: domain.data)
    (hlow : pat.data.map Char.toLower = pat.data)
    (h : matchesAlt ss subs domain url = true) :
    pyContains (pyLower url) pat = true := by
  rw [matchesAlt, List.any_eq_true] at h
  obtain ⟨sch, _, h⟩ := h
  rw [List.any_eq_true] at h
  obtain ⟨sub, _, h⟩ := h
  have hpre := pyStartsWith_iff.mp h
  have hdom : domain.data <:+: (sch ++ sub ++ domain).data :=
    ⟨(sch ++ sub).data, [], by simp [String.data_append]⟩
  have hinf : pat.data <:+: url.data := (hd.trans hdom).trans hpre.isInfix
  rw [ pyContains_iff]
  have hmap := hinf.map Char.toLower
  rw [hlow] at hmap
  exact hmap

/-- Membership in the survivors of one sweep pass. -/
theorem cleanup_pass_eq_filter (now : Int) (unlinkOk : FileEntry → Bool)
    (files : List FileEntry) :
    cleanup_pass now unlinkOk files =
      files.filter fun f =>
        !(f.isFile && decide (now - f.mtime > CLEANUP_INTERVAL) && unlinkOk f) := by
  induction files with
  | nil => rfl
  | cons g fs ih =>
      simp only [cleanup_pass, List.filter_cons]
      by_cases h1 : (g.isFile && decide (now - g.mtime > CLEANUP_INTERVAL)) = true
      · by_cases h2 : unlinkOk g = true
        · simp [h1, h2, ih]
        · simp only [Bool.not_eq_true] at h2
          simp [h1, h2, ih]
      · simp only [Bool.not_eq_true] at h1
        simp [h1, ih]

theorem mem_cleanup_pass {now : Int} {unlinkOk : FileEntry → Bool}
    {files : List FileEntry} {f : FileEntry} :
    f ∈ cleanup_pass now unlinkOk files ↔
      f ∈ files ∧
        ¬(f.isFile = true ∧ now - f.mtime > CLEANUP_INTERVAL ∧ unlinkOk f = true) := by
  rw [cleanup_pass_eq_filter, List.mem_filter]
  constructor
  · rintro ⟨hm, hcond⟩
    refine ⟨hm, ?_⟩
    rintro ⟨h1, h2, h3⟩
    simp [h1, h2, h3] at hcond
  · rintro ⟨hm, hcond⟩
    refine ⟨hm, ?_⟩
    by_cases h1 : f.isFile = true
    · by_cases h2 : now - f.mtime > CLEANUP_INTERVAL
      · have h3 : unlinkOk f = false := by
          cases h3 : unlinkOk f
          · rfl
          · exact absurd ⟨h1, h2, h3⟩ hcond
        simp [h1, h2, h3]
      · simp [h1, h2]
    · simp only [Bool.not_eq_true] at h1
      simp [h1]

theorem round_rat_mono {a b : ℚ} (h : a ≤ b) : round a ≤ round b := by
  rw [round_eq, round_eq]
  exact Int.floor_le_floor (by linarith)

theorem round1_bounds {q : ℚ} (h0 : 0 ≤ q) (h1 : q ≤ 100) :
    0 ≤ round1 q ∧ round1 q ≤ 100 := by
  have hlo : (0 : ℤ) ≤ round (10 * q) := by
    have h := round_rat_mono (show (0 : ℚ) ≤ 10 * q by linarith)
    simpa using h
  have hhi : round (10 * q) ≤ 1000 := by
    have h := round_rat_mono (show 10 * q ≤ (1000 : ℚ) by linarith)
    simpa using h
  rw [round1]
  constructor
  · apply div_nonneg _ (by norm_num)
    exact_mod_cast hlo
  · rw [div_le_iff₀ (by norm_num : (0 : ℚ) < 10)]
    have h2 : ((round (10 * q) : ℤ) : ℚ) ≤ ((1000 : ℤ) : ℚ) := by exact_mod_cast hhi
    push_cast at h2
    linarith

/-- The progress invariant: a percentage in `[0,100]` or the sentinel `-1`. -/
def progressOk (p : ℚ) : Prop := (0 ≤ p ∧ p ≤ 100) ∨ p = -1

/-- A `downloading` tick does not report more downloaded bytes than the total
the hook will compute from it (when that total is positive). -/
def eventBounded : PEvent → Bool
  | .downloading d tb est => decide (0 < pyOr tb (pyOr est 0) → d ≤ pyOr tb (pyOr est 0))
  | _ => true

theorem progress_hook_ok {p : ℚ} {e : PEvent} (hp : progressOk p)
    (he : eventBounded e = true) : progressOk (progress_hook p e) := by
  cases e with
  | downloading d tb est =>
      simp only [eventBounded, decide_eq_true_eq] at he
      simp only [progress_hook]
      by_cases h : 0 < pyOr tb (pyOr est 0)
      · rw [if_pos h]
        left
        have hd : d ≤ pyOr tb (pyOr est 0) := he h
        have htq : (0 : ℚ) < (pyOr tb (pyOr est 0) : ℚ) := by exact_mod_cast h
        have hq0 : 0 ≤ (d : ℚ) / (pyOr tb (pyOr est 0) : ℚ) * 100 := by positivity
        have hq1 : (d : ℚ) / (pyOr tb (pyOr est 0) : ℚ) * 100 ≤ 100 := by
          have hdq : (d : ℚ) ≤ (pyOr tb (pyOr est 0) : ℚ) := by exact_mod_cast hd
          have hle : (d : ℚ) / (pyOr tb (pyOr est 0) : ℚ) ≤ 1 := by
            rw [div_le_one htq]; exact hdq
          nlinarith
        exact round1_bounds hq0 hq1
      · rw [if_neg h]
        right
        rfl
  | finished =>
      left
      constructor <;> norm_num [progress_hook]
  | other => simpa [progress_hook] using hp

theorem foldl_progress_ok {p : ℚ} {es : List PEvent} (hp : progressOk p)
    (hb : ∀ e ∈ es, eventBounded e = true) :
    progressOk (es.foldl progress_hook p) := by
  induction es generalizing p with
  | nil => simpa using hp
  | cons e rest ih =>
      simp only [List.foldl_cons]
      exact ih (progress_hook_ok hp (hb e (by simp))) (fun x hx => hb x (by simp [hx]))

theorem str_append_left_ne_empty {a b : String} (h : a ≠ "") : a ++ b ≠ "" := by
  intro hc
  apply h
  rw [str_eq_empty_iff] at hc ⊢
  rw [String.data_append] at hc
  exact List.append_eq_nil.mp hc |>.1

/-- Shape of the record `download_video` leaves behind: either the complete
branch fired on a found file, or a terminal error with a nonempty message and
an untouched `filename`. -/
theorem download_video_outcome (task_id : String) (env : WorkerEnv) (r : Record) :
    (∃ f, scanForFile task_id env.dirFiles = some f ∧
        pyStartsWith f.name task_id = true ∧
        (download_video task_id env r).status = "complete" ∧
        (download_video task_id env r).filename = some f.name ∧
        (download_video task_id env r).error = r.error) ∨
    ((download_video task_id env r).status = "error" ∧
        (download_video task_id env r).filename = r.filename ∧
        ∃ m, (download_video task_id env r).error = some m ∧ m ≠ "") := by
  obtain ⟨ex, events, dres, files⟩ := env
  have hclassify : ∀ m, classify_download_error m ≠ "" := by
    intro m
    rw [classify_download_error]
    split_ifs <;> decide
  cases ex with
  | error e =>
      right
      cases e with
      | downloadError m =>
          exact ⟨by simp [download_video, applyExc], by simp [download_video, applyExc],
            classify_download_error m, by simp [download_video, applyExc], hclassify m⟩
      | otherError m =>
          exact ⟨by simp [download_video, applyExc], by simp [download_video, applyExc],
            "Unexpected error: " ++ m, by simp [download_video, applyExc],
            str_append_left_ne_empty (by decide)⟩
  | ok info =>
      cases dres with
      | some e =>
          right
          cases e with
          | downloadError m =>
              exact ⟨by simp [download_video, applyExc], by simp [download_video, applyExc],
                classify_download_error m, by simp [download_video, applyExc], hclassify m⟩
          | otherError m =>
              exact ⟨by simp [download_video, applyExc], by simp [download_video, applyExc],
                "Unexpected error: " ++ m, by simp [download_video, applyExc],
                str_append_left_ne_empty (by decide)⟩
      | none =>
          cases hscan : scanForFile task_id files with
          | some f =>
              left
              have hfind : pyStartsWith f.name task_id = true := by
                have h := hscan
                rw [scanForFile] at h
                have h2 := List.find?_some h
                exact h2
              refine ⟨f, rfl, hfind, ?_, ?_, ?_⟩
              · simp [download_video, hscan]
              · simp [download_video, hscan]
              · simp [download_video, hscan]
          | none =>
              right
              exact ⟨by simp [download_video, hscan], by simp [download_video, hscan],
                missingFileMsg, by simp [download_video, hscan], by decide⟩

/-! ### Claim theorems -/

/-- C1: for the record created at submission and for the record after its
worker has finished, `filename` is set iff `status = "complete"` and `error`
is set iff `status = "error"`; the two terminal indicators are mutually
exclusive, and a set `filename` (or `error`) is a nonempty string. -/
theorem C1_terminal_invariant (task_id url platform : String) (env : WorkerEnv)
    (htid : task_id ≠ "") :
    ((initRecord url platform).filename.isSome ↔
        (initRecord url platform).status = "complete") ∧
    ((initRecord url platform).error.isSome ↔
        (initRecord url platform).status = "error") ∧
    ((download_video task_id env (initRecord url platform)).filename.isSome ↔
        (download_video task_id env (initRecord url platform)).status = "complete") ∧
    ((download_video task_id env (initRecord url platform)).error.isSome ↔
        (download_video task_id env (initRecord url platform)).status = "error") ∧
    ¬((download_video task_id env (initRecord url platform)).filename.isSome ∧
        (download_video task_id env (initRecord url platform)).error.isSome) ∧
    (∀ fn, (download_video task_id env (initRecord url platform)).filename = some fn →
        fn ≠ "") ∧
    (∀ m, (download_video task_id env (initRecord url platform)).error = some m →
        m ≠ "") := by
  refine ⟨by simp [initRecord], by simp [initRecord], ?_, ?_, ?_, ?_, ?_⟩ <;>
    obtain hc | hc := download_video_outcome task_id env (initRecord url platform)
  · obtain ⟨f, _, _, hst, hfn, _⟩ := hc
    rw [hst, hfn]
    simp
  · obtain ⟨hst, hfn, _⟩ := hc
    rw [hst, hfn]
    simp [initRecord]
  · obtain ⟨f, _, _, hst, _, herr⟩ := hc
    rw [hst, herr]
    simp [initRecord]
  · obtain ⟨hst, _, m, herr, _⟩ := hc
    rw [hst, herr]
    simp
  · obtain ⟨f, _, _, _, _, herr⟩ := hc
    rw [herr]
    simp [initRecord]
  · obtain ⟨_, hfn, _⟩ := hc
    rw [hfn]
    simp [initRecord]
  · obtain ⟨f, _, hpre, _, hfn, _⟩ := hc
    intro fn h
    rw [hfn] at h
    obtain rfl : f.name = fn := by simpa using h
    intro hempty
    apply htid
    rw [str_eq_empty_iff] at hempty ⊢
    have hp := pyStartsWith_iff.mp hpre
    rw [hempty] at hp
    simpa using hp
  · obtain ⟨_, hfn, _⟩ := hc
    intro fn h
    rw [hfn] at h
    simp [initRecord] at h
  · obtain ⟨f, _, _, _, _, herr⟩ := hc
    intro m h
    rw [herr] at h
    simp [initRecord] at h
  · obtain ⟨_, _, m, herr, hm⟩ := hc
    intro m2 h
    rw [herr] at h
    obtain rfl : m = m2 := by simpa using h
    exact hm

/-- C1 witness: a concrete successful run. -/
theorem C1_terminal_invariant_witness :
    (download_video "ab12cd34"
        ⟨.ok ⟨"t", "", 0, "u"⟩, [], none, [⟨"ab12cd34_v.mp4", 0, 5, true⟩]⟩
        (initRecord "https://tiktok.com/x" "tiktok")).filename.isSome ↔
    (download_video "ab12cd34"
        ⟨.ok ⟨"t", "", 0, "u"⟩, [], none, [⟨"ab12cd34_v.mp4", 0, 5, true⟩]⟩
        (initRecord "https://tiktok.com/x" "tiktok")).status = "complete" :=
  (C1_terminal_invariant "ab12cd34" "https://tiktok.com/x" "tiktok"
    ⟨.ok ⟨"t", "", 0, "u"⟩, [], none, [⟨"ab12cd34_v.mp4", 0, 5, true⟩]⟩
    (by decide)).2.2.1

/-- C2 counterexample: a downloading tick whose `downloaded_bytes` (200)
exceeds its `total_bytes` (100) drives `progress` to 200, outside
`[0,100] ∪ {-1}`: the hook stores `round(downloaded/total*100, 1)` without
clamping, so the claimed invariant fails as stated. -/
theorem C2_counterexample :
    (download_video "ab12cd34"
        ⟨.ok ⟨"", "", 0, ""⟩, [.downloading 200 (some 100) none], none, []⟩
        (initRecord "u" "tiktok")).progress = 200 ∧
    ¬((0 ≤ (download_video "ab12cd34"
          ⟨.ok ⟨"", "", 0, ""⟩, [.downloading 200 (some 100) none], none, []⟩
          (initRecord "u" "tiktok")).progress ∧
        (download_video "ab12cd34"
          ⟨.ok ⟨"", "", 0, ""⟩, [.downloading 200 (some 100) none], none, []⟩
          (initRecord "u" "tiktok")).progress ≤ 100) ∨
      (download_video "ab12cd34"
          ⟨.ok ⟨"", "", 0, ""⟩, [.downloading 200 (some 100) none], none, []⟩
          (initRecord "u" "tiktok")).progress = -1) := by
  have h : (download_video "ab12cd34"
      ⟨.ok ⟨"", "", 0, ""⟩, [.downloading 200 (some 100) none], none, []⟩
      (initRecord "u" "tiktok")).progress = 200 := by
    simp [download_video, progress_hook, pyOr, scanForFile, round1]
    norm_num [round_eq]
  refine ⟨h, ?_⟩
  rw [h]
  norm_num

/-- C2 amended: under the collaborator contract that each downloading tick
reports at most the computed total (the code itself does not clamp), the
progress value after any prefix of the events, and in the final record, lies
in `[0,100]` or equals the sentinel `-1`; and when the worker completed and
the event sequence ended with the terminal `finished` tick, the final
progress reads 100. -/
theorem C2_progress_amended (task_id url platform : String) (env : WorkerEnv)
    (hb : ∀ e ∈ env.events, eventBounded e = true) :
    (∀ es, es <+: env.events → progressOk (es.foldl progress_hook 0)) ∧
    progressOk (download_video task_id env (initRecord url platform)).progress ∧
    (∀ es, (download_video task_id env (initRecord url platform)).status = "complete" →
        env.events = es ++ [PEvent.finished] →
        (download_video task_id env (initRecord url platform)).progress = 100) := by
  obtain ⟨ex, events, dres, files⟩ := env
  simp only at hb
  refine ⟨?_, ?_, ?_⟩
  · intro es hes
    exact foldl_progress_ok (Or.inl (by norm_num)) (fun e he => hb e (hes.subset he))
  · have hfold : progressOk (events.foldl progress_hook 0) :=
      foldl_progress_ok (Or.inl (by norm_num)) hb
    cases ex with
    | error e =>
        cases e <;> simp only [download_video, applyExc] <;>
          exact Or.inl (by norm_num)
    | ok info =>
        cases dres with
        | some e =>
            cases e <;> simpa [download_video, applyExc] using hfold
        | none =>
            cases hscan : scanForFile task_id files with
            | some f => simpa [download_video, hscan] using hfold
            | none => simpa [download_video, hscan] using hfold
  · intro es hcomp heq
    cases ex with
    | error e =>
        cases e <;> simp [download_video, applyExc] at hcomp
    | ok info =>
        cases dres with
        | some e =>
            cases e <;> simp [download_video, applyExc] at hcomp
        | none =>
            cases hscan : scanForFile task_id files with
            | some f =>
                subst heq
                simp [download_video, hscan, List.foldl_append, progress_hook]
            | none => simp [download_video, hscan] at hcomp

/-- C2 witness: a concrete bounded run ending with `finished` reads 100. -/
theorem C2_progress_amended_witness :
    (download_video "ab12cd34"
        ⟨.ok ⟨"t", "", 0, "u"⟩, [.downloading 50 (some 100) none, .finished], none,
          [⟨"ab12cd34_v.mp4", 0, 5, true⟩]⟩
        (initRecord "u" "tiktok")).progress = 100 :=
  (C2_progress_amended "ab12cd34" "u" "tiktok"
      ⟨.ok ⟨"t", "", 0, "u"⟩, [.downloading 50 (some 100) none, .finished], none,
        [⟨"ab12cd34_v.mp4", 0, 5, true⟩]⟩
      (by decide)).2.2 [.downloading 50 (some 100) none] (by decide) (by decide)

/-- C3: `DownloadError` messages are classified by first match into the
private/login bucket (`"Private"` or case-insensitive `"login"`), else the
not-found bucket (case-insensitive `"not found"` or `"404"`), else the
generic bucket, each with its distinct user-facing message; any other
exception yields the unexpected-error message carrying the original text;
the status ends as `"error"` in every such case, also through the worker. -/
theorem C3_error_classification (msg : String) (r : Record) :
    (applyExc (.downloadError msg) r).status = "error" ∧
    (applyExc (.otherError msg) r).status = "error" ∧
    (applyExc (.otherError msg) r).error = some ("Unexpected error: " ++ msg) ∧
    ((pyContains msg "Private" = true ∨ pyContains (pyLower msg) "login" = true) →
        (applyExc (.downloadError msg) r).error = some privateMsg) ∧
    (pyContains msg "Private" = false → pyContains (pyLower msg) "login" = false →
        (pyContains (pyLower msg) "not found" = true ∨ pyContains msg "404" = true) →
        (applyExc (.downloadError msg) r).error = some notFoundMsg) ∧
    (pyContains msg "Private" = false → pyContains (pyLower msg) "login" = false →
        pyContains (pyLower msg) "not found" = false → pyContains msg "404" = false →
        (applyExc (.downloadError msg) r).error = some genericMsg) ∧
    (∀ task_id env e, env.downloadResult = some e →
        (download_video task_id env r).status = "error") := by
  refine ⟨by simp [applyExc], by simp [applyExc], by simp [applyExc], ?_, ?_, ?_, ?_⟩
  · intro h
    rcases h with h | h <;> simp [applyExc, classify_download_error, h]
  · intro h1 h2 h
    rcases h with h | h <;> simp [applyExc, classify_download_error, h1, h2, h]
  · intro h1 h2 h3 h4
    simp [applyExc, classify_download_error, h1, h2, h3, h4]
  · intro task_id env e hdr
    obtain ⟨ex, events, dres, files⟩ := env
    simp only at hdr
    subst hdr
    cases ex with
    | error e2 => cases e2 <;> simp [download_video, applyExc]
    | ok info => cases e <;> simp [download_video, applyExc]

/-- C3 witness: a concrete private-content failure. -/
theorem C3_error_classification_witness :
    (applyExc (.downloadError "Private video") (initRecord "u" "tiktok")).error =
      some privateMsg :=
  (C3_error_classification "Private video" (initRecord "u" "tiktok")).2.2.2.1
    (Or.inl (by decide))

/-- C4: in one sweep pass, a regular file strictly older than the 1800 s
retention window whose unlink succeeds is deleted; a file younger than the
window survives; a file whose unlink fails survives silently; and the fate of
every other file is unaffected by that failure. -/
theorem C4_retention_sweep (now : Int) (unlinkOk unlinkOk2 : FileEntry → Bool)
    (files : List FileEntry) (f g : FileEntry) (hf : f ∈ files) :
    CLEANUP_INTERVAL = 1800 ∧
    (f.isFile = true → now - f.mtime > 1800 → unlinkOk f = true →
        f ∉ cleanup_pass now unlinkOk files) ∧
    (now - f.mtime < 1800 → f ∈ cleanup_pass now unlinkOk files) ∧
    (unlinkOk f = false → f ∈ cleanup_pass now unlinkOk files) ∧
    ((∀ x, x ≠ f → unlinkOk x = unlinkOk2 x) → g ≠ f →
        (g ∈ cleanup_pass now unlinkOk files ↔ g ∈ cleanup_pass now unlinkOk2 files)) := by
  refine ⟨rfl, ?_, ?_, ?_, ?_⟩
  · intro h1 h2 h3 hmem
    exact (mem_cleanup_pass.mp hmem).2 ⟨h1, h2, h3⟩
  · intro h
    refine mem_cleanup_pass.mpr ⟨hf, ?_⟩
    rintro ⟨_, h2, _⟩
    rw [CLEANUP_INTERVAL] at h2
    omega
  · intro h
    refine mem_cleanup_pass.mpr ⟨hf, ?_⟩
    rintro ⟨_, _, h3⟩
    rw [h] at h3
    exact Bool.false_ne_true h3
  · intro hsame hg
    rw [mem_cleanup_pass, mem_cleanup_pass, hsame g hg]

/-- C4 witness: at `now = 10000`, a file of mtime 0 is swept while a file of
mtime 9500 survives the same pass. -/
theorem C4_retention_sweep_witness :
    (⟨"old.mp4", 0, 1, true⟩ : FileEntry) ∉
      cleanup_pass 10000 (fun _ => true)
        [⟨"old.mp4", 0, 1, true⟩, ⟨"new.mp4", 9500, 1, true⟩] :=
  (C4_retention_sweep 10000 (fun _ => true) (fun _ => true)
      [⟨"old.mp4", 0, 1, true⟩, ⟨"new.mp4", 9500, 1, true⟩]
      ⟨"old.mp4", 0, 1, true⟩ ⟨"new.mp4", 9500, 1, true⟩
      (by decide)).2.1 (by decide) (by decide) (by decide)

/-- C5: an accepted submission inserts the full queued record (progress 0,
`filename`/`error` unset, empty metadata) into the store that the response is
computed from — the worker has not yet touched it — so a status poll with the
returned identifier before the worker runs yields exactly that record. -/
theorem C5_queued_before_worker (s : Store) (task_id raw : String)
    (h1 : (pyStrip raw) ≠ "")
    (h2 : is_valid_url (normalize_url (pyStrip raw)) = true) :
    (start_download s task_id (some raw)).response =
      .accepted task_id (get_platform (normalize_url (pyStrip raw))) ∧
    (start_download s task_id (some raw)).store task_id =
      some (initRecord (normalize_url (pyStrip raw))
        (get_platform (normalize_url (pyStrip raw)))) ∧
    get_status (start_download s task_id (some raw)).store task_id =
      .ok (initRecord (normalize_url (pyStrip raw))
        (get_platform (normalize_url (pyStrip raw)))) ∧
    (start_download s task_id (some raw)).workerSpawned = true ∧
    (initRecord (normalize_url (pyStrip raw))
        (get_platform (normalize_url (pyStrip raw)))).status = "queued" ∧
    (initRecord (normalize_url (pyStrip raw))
        (get_platform (normalize_url (pyStrip raw)))).progress = 0 ∧
    (initRecord (normalize_url (pyStrip raw))
        (get_platform (normalize_url (pyStrip raw)))).filename = none ∧
    (initRecord (normalize_url (pyStrip raw))
        (get_platform (normalize_url (pyStrip raw)))).error = none ∧
    (initRecord (normalize_url (pyStrip raw))
        (get_platform (normalize_url (pyStrip raw)))).title = "" ∧
    (initRecord (normalize_url (pyStrip raw))
        (get_platform (normalize_url (pyStrip raw)))).thumbnail = "" ∧
    (initRecord (normalize_url (pyStrip raw))
        (get_platform (normalize_url (pyStrip raw)))).duration = 0 ∧
    (initRecord (normalize_url (pyStrip raw))
        (get_platform (normalize_url (pyStrip raw)))).uploader = "" ∧
    (initRecord (normalize_url (pyStrip raw))
        (get_platform (normalize_url (pyStrip raw)))).filesize = 0 := by
  have hstore : (start_download s task_id (some raw)).store task_id =
      some (initRecord (normalize_url (pyStrip raw))
        (get_platform (normalize_url (pyStrip raw)))) := by
    simp [start_download, h1, h2, storeInsert]
  refine ⟨?_, hstore, ?_, ?_, rfl, rfl, rfl, rfl, rfl, rfl, rfl, rfl, rfl⟩
  · simp [start_download, h1, h2]
  · rw [get_status, hstore]
  · simp [start_download, h1, h2]

/-- C5 witness: a concrete accepted submission polls back as queued. -/
theorem C5_queued_before_worker_witness :
    get_status (start_download (fun _ => none) "ab12cd34"
        (some "tiktok.com/x")).store "ab12cd34" =
      .ok (initRecord (normalize_url (pyStrip "tiktok.com/x"))
        (get_platform (normalize_url (pyStrip "tiktok.com/x")))) :=
  (C5_queued_before_worker (fun _ => none) "ab12cd34" "tiktok.com/x"
      (by decide) (by decide)).2.2.1

/-- C6 counterexample: `https://www.instagram.com/tiktok` is a supported
Instagram URL and validation accepts it, but the platform tag attached is
`"tiktok"`, not the URL's platform: the tagger tests the `"tiktok"` substring
first, anywhere in the string. -/
theorem C6_counterexample :
    is_valid_url "https://www.instagram.com/tiktok" = true ∧
    spec_supported_platform "https://www.instagram.com/tiktok" = some "instagram" ∧
    get_platform "https://www.instagram.com/tiktok" = "tiktok" ∧
    get_platform "https://www.instagram.com/tiktok" ≠ "instagram" := by decide

/-- C6 amended: validation accepts exactly the supported-platform URLs, and
the tag is the URL's platform except that an accepted Instagram-family URL
containing `"tiktok"` (case-insensitively) anywhere is tagged `"tiktok"`:
every accepted TikTok URL is tagged `tiktok`, and every accepted
Instagram/ddinstagram URL not containing `"tiktok"` is tagged `instagram`. -/
theorem C6_classifier_amended (url : String) :
    (is_valid_url url = true ↔ (spec_supported_platform url).isSome = true) ∧
    (spec_supported_platform url = some "tiktok" → get_platform url = "tiktok") ∧
    (spec_supported_platform url = some "instagram" →
        pyContains (pyLower url) "tiktok" = false → get_platform url = "instagram") := by
  refine ⟨?_, ?_, ?_⟩
  · rw [is_valid_url, spec_supported_platform]
    cases h1 : matchesAlt schemeAlts tiktokSubAlts "tiktok.com/" url <;>
      cases h2 : matchesAlt schemeAlts wwwAlts "instagram.com/" url <;>
        cases h3 : matchesAlt schemeAlts [""] "ddinstagram.com/" url <;>
          simp [h1, h2, h3]
  · intro h
    rw [spec_supported_platform] at h
    by_cases h1 : matchesAlt schemeAlts tiktokSubAlts "tiktok.com/" url = true
    · have hc := contains_of_matchesAlt schemeAlts tiktokSubAlts "tiktok.com/" url
        "tiktok" (by decide) (by decide) h1
      simp [get_platform, hc]
    · rw [if_neg h1] at h
      split_ifs at h
      exact absurd h (by decide)
  · intro h ht
    rw [spec_supported_platform] at h
    split_ifs at h with h1 h2
    · exact absurd h (by decide)
    · rw [Bool.or_eq_true] at h2
      rcases h2 with h2 | h2
      · have hc := contains_of_matchesAlt schemeAlts wwwAlts "instagram.com/" url
          "instagram" (by decide) (by decide) h2
        simp [get_platform, ht, hc]
      · have hc := contains_of_matchesAlt schemeAlts [""] "ddinstagram.com/" url
          "instagram" (by decide) (by decide) h2
        simp [get_platform, ht, hc]

/-- C6 witness: a short-link TikTok URL is accepted and correctly tagged. -/
theorem C6_classifier_amended_witness :
    get_platform "vm.tiktok.com/abc" = "tiktok" :=
  (C6_classifier_amended "vm.tiktok.com/abc").2.1 (by decide)

/-- C7 counterexample: `httpfoo.bar` carries no scheme, yet normalization
leaves it unchanged instead of prepending `https://`: the code tests
`startswith("http")`, not the presence of a scheme. -/
theorem C7_counterexample :
    spec_has_scheme "httpfoo.bar" = false ∧
    normalize_url "httpfoo.bar" = "httpfoo.bar" ∧
    normalize_url "httpfoo.bar" ≠ "https://" ++ "httpfoo.bar" := by decide

/-- C7 amended: normalization prepends `https://` exactly when the string
does not start with the four characters `http`; in particular any string
already carrying an http/https scheme is left unchanged. -/
theorem C7_normalize_amended (url : String) :
    (pyStartsWith url "http" = true → normalize_url url = url) ∧
    (pyStartsWith url "http" = false → normalize_url url = "https://" ++ url) ∧
    (spec_has_scheme url = true → normalize_url url = url) := by
  refine ⟨fun h => ?_, fun h => ?_, fun h => ?_⟩
  · simp [normalize_url, h]
  · simp [normalize_url, h]
  · have h4 : pyStartsWith url "http" = true := by
      rw [ pyStartsWith_iff]
      rw [spec_has_scheme, Bool.or_eq_true] at h
      rcases h with h1 | h1
      · exact List.IsPrefix.trans (by decide) (pyStartsWith_iff.mp h1)
      · exact List.IsPrefix.trans (by decide) (pyStartsWith_iff.mp h1)
    simp [normalize_url, h4]

/-- C7 witness: a scheme-less URL gets `https://` prepended. -/
theorem C7_normalize_amended_witness :
    normalize_url "tiktok.com/x" = "https://" ++ "tiktok.com/x" :=
  (C7_normalize_amended "tiktok.com/x").2.1 (by decide)

/-- Stripping the anchored hex-run-plus-underscore from a filename of the
shape the worker stores (`<task id>_<rest>` with a nonempty all-hex id)
yields exactly the part after the underscore. -/
theorem stripHexIdUnderscore_concat (tid suffix : String) (h1 : tid ≠ "")
    (h2 : ∀ c ∈ tid.data, isHexLower c = true) :
    stripHexIdUnderscore (tid ++ "_" ++ suffix) = suffix := by
  have hdata : (tid ++ "_" ++ suffix).data = tid.data ++ '_' :: suffix.data := by
    rw [String.data_append, String.data_append]
    simp
  have htake : (tid ++ "_" ++ suffix).data.takeWhile isHexLower = tid.data := by
    rw [hdata, takeWhile_append_of_all tid.data ('_' :: suffix.data) h2]
    rw [List.takeWhile_cons]
    simp [isHexLower]
  have hdrop : (tid ++ "_" ++ suffix).data.dropWhile isHexLower = '_' :: suffix.data := by
    rw [hdata, dropWhile_append_of_all tid.data ('_' :: suffix.data) h2]
    rw [List.dropWhile_cons]
    simp [isHexLower]
  obtain ⟨c, rest, hc⟩ : ∃ c rest, tid.data = c :: rest := by
    cases htid : tid.data with
    | nil => exact absurd (str_eq_empty_iff.mpr htid) h1
    | cons c rest => exact ⟨c, rest, rfl⟩
  rw [stripHexIdUnderscore, htake, hdrop, hc]
  apply String.ext
  rfl

/-- C8: the file endpoint 404s for an unknown task, a task not yet complete,
and a missing artifact; for a complete task whose stored filename is the task
id (nonempty, all lowercase hex) plus underscore plus a nonempty rest, and
whose artifact exists, it serves the file under the rest as suggested name —
the id prefix and its trailing underscore stripped. -/
theorem C8_file_endpoint (s : Store) (existsOnDisk : String → Bool)
    (task_id tid suffix : String) (t : Record) :
    (s task_id = none → download_file s existsOnDisk task_id = .notFound "File not ready.") ∧
    (s task_id = some t → t.status ≠ "complete" →
        download_file s existsOnDisk task_id = .notFound "File not ready.") ∧
    (s task_id = some t → t.status = "complete" → ∀ fn, t.filename = some fn →
        existsOnDisk fn = false →
        download_file s existsOnDisk task_id = .notFound "File not found.") ∧
    (s task_id = some t → t.status = "complete" →
        t.filename = some (tid ++ "_" ++ suffix) →
        tid ≠ "" → (∀ c ∈ tid.data, isHexLower c = true) → suffix ≠ "" →
        existsOnDisk (tid ++ "_" ++ suffix) = true →
        download_file s existsOnDisk task_id = .serve (tid ++ "_" ++ suffix) suffix) := by
  refine ⟨?_, ?_, ?_, ?_⟩
  · intro h
    simp [download_file, h]
  · intro h hs
    simp [download_file, h, hs]
  · intro h hs fn hfn hex
    simp [download_file, h, hs, hfn, hex]
  · intro h hs hfn htid hhex hsuf hex
    rw [download_file, h]
    simp only [hs, hfn, hex, if_true, ite_not, if_neg]
    rw [stripHexIdUnderscore_concat tid suffix htid hhex]
    simp [hsuf]

/-- C8 witness: a concrete complete task is served with the id stripped. -/
theorem C8_file_endpoint_witness :
    download_file
      (storeInsert (fun _ => none) "ab12cd34"
        { status := "complete", progress := 100, filename := some "ab12cd34_video.mp4",
          error := none, url := "u", platform := "tiktok", title := "video",
          thumbnail := "", duration := 1, uploader := "", filesize := 5 })
      (fun _ => true) "ab12cd34" = .serve ("ab12cd34" ++ "_" ++ "video.mp4") "video.mp4" :=
  (C8_file_endpoint
      (storeInsert (fun _ => none) "ab12cd34"
        { status := "complete", progress := 100, filename := some "ab12cd34_video.mp4",
          error := none, url := "u", platform := "tiktok", title := "video",
          thumbnail := "", duration := 1, uploader := "", filesize := 5 })
      (fun _ => true) "ab12cd34" "ab12cd34" "video.mp4"
      { status := "complete", progress := 100, filename := some "ab12cd34_video.mp4",
        error := none, url := "u", platform := "tiktok", title := "video",
        thumbnail := "", duration := 1, uploader := "", filesize := 5 }).2.2.2
    (by decide) (by decide) (by decide) (by decide) (by decide) (by decide) (by decide)

/-- C9: a reader polling between the `status` write (app.py line 126) and the
`filename` write (line 127) of the success path observes the torn state
`status = "complete"` with `filename` unset — the success-path update is
three separate field writes, not an atomic record update, so the claimed
never-torn property fails on the code. -/
theorem C9_torn_state_observable :
    ∃ r ∈ observableStates
        { initRecord "https://tiktok.com/x" "tiktok" with status := "downloading" }
        (successWrites "ab12cd34_v.mp4" 5),
      r.status = "complete" ∧ r.filename = none := by decide

/-- C10: every string the validator accepts is tagged `"tiktok"` or
`"instagram"` by the platform tagger — never `"unknown"`. -/
theorem C10_platform_total (url : String) (h : is_valid_url url = true) :
    get_platform url = "tiktok" ∨ get_platform url = "instagram" := by
  rw [is_valid_url, Bool.or_eq_true, Bool.or_eq_true] at h
  rcases h with (h | h) | h
  · left
    have hc := contains_of_matchesAlt schemeAlts tiktokSubAlts "tiktok.com/" url
      "tiktok" (by decide) (by decide) h
    simp [get_platform, hc]
  · by_cases ht : pyContains (pyLower url) "tiktok" = true
    · left
      simp [get_platform, ht]
    · right
      have hc := contains_of_matchesAlt schemeAlts wwwAlts "instagram.com/" url
        "instagram" (by decide) (by decide) h
      simp only [Bool.not_eq_true] at ht
      simp [get_platform, ht, hc]
  · by_cases ht : pyContains (pyLower url) "tiktok" = true
    · left
      simp [get_platform, ht]
    · right
      have hc := contains_of_matchesAlt schemeAlts [""] "ddinstagram.com/" url
        "instagram" (by decide) (by decide) h
      simp only [Bool.not_eq_true] at ht
      simp [get_platform, ht, hc]

/-- C10 witness: a concrete accepted URL gets a supported tag. -/
theorem C10_platform_total_witness :
    get_platform "tiktok.com/@u/video/1" = "tiktok" ∨
    get_platform "tiktok.com/@u/video/1" = "instagram" :=
  C10_platform_total "tiktok.com/@u/video/1" (by decide)

end SaveClip
